import Mathlib

/-!
Shallow embedding of `src/main.cpp` (Sterilizer escape-room prop firmware).

The firmware keeps its whole state in process-wide globals; we bundle them in
a `Sys` record.  External collaborators (WiFi transport, MQTT broker, LED
strip, relays, rotary sensor, `millis()` clock) are modelled as per-tick
inputs, and the observable side effects (relay writes, LED writes, delays,
publishes, reconnect/subscribe requests) are collected as an `Event` trace.
Times are `millis()` values, i.e. 32-bit unsigned milliseconds; unsigned
subtraction is modelled explicitly mod 2^32.

The blocking wait loops `wifiSetup` and `mqttSetup` (each spins until its
collaborator reports connected) are modelled fuel-style: they take the finite
list of outcomes the collaborator returns to successive attempts and yield
`none` when the loop is still spinning after exhausting that list, so
`none` for every list length means the loop never completes.
-/

namespace Sterilizer

/-- `enum PuzzleState{Initializing, Running, Solved};` (main.cpp line 102). -/
inductive PuzzleState
  | Initializing
  | Running
  | Solved
deriving DecidableEq

/-- The three relay outputs (Flames, Pump, MagLock pins); `true` = HIGH. -/
structure Actuators where
  flames : Bool
  pump : Bool
  maglock : Bool
deriving DecidableEq

/-- LED strip colors used by the firmware. -/
inductive Hue
  | purple
  | blue
  | red
  | green
deriving DecidableEq

/-- Observable side effects of the firmware, in program order. -/
inductive Event
  | setFlames (b : Bool)
  | setPump (b : Bool)
  | setMagLock (b : Bool)
  | dwell (ms : Nat)
  | looperAnim (c : Hue)
  | allHue (c : Hue)
  | publish (topic : String) (payload : String)
  | subscribeTopic (topic : String)
  | wifiReconnect
deriving DecidableEq

/-- The spec-level tri-state connection status (spec section 3). -/
inductive ConnectionStatus
  | Disconnected
  | Connected
  | TimedOut
deriving DecidableEq

/-- LED status signals emitted by `updateLEDs` (purple / blue / red fills). -/
inductive LedSignal
  | purple
  | blue
  | red
deriving DecidableEq

/-- The global mutable state of main.cpp (lines 81-103). -/
structure Sys where
  puzzle : PuzzleState
  act : Actuators
  wifiConnected : Bool
  wifiTimedOut : Bool
  lastWiFiAttempt : Nat
  mqttConnected : Bool
  mqttTimedOut : Bool
  lastMQTTAttempt : Nat
  previousWifiStatus : Bool
  previousMqttStatus : Bool
deriving DecidableEq

/-- `const unsigned long wifiTimeout = 120000;` -/
def wifiTimeout : Nat := 120000

/-- `const unsigned long mqttTimeout = 120000;` -/
def mqttTimeout : Nat := 120000

/-- `const char hostTopic[] = "ToHost/Sterilizer";` -/
def hostTopic : String := "ToHost/Sterilizer"

/-- `const char DeviceTopic[] = "ToDevice/Sterilizer";` -/
def DeviceTopic : String := "ToDevice/Sterilizer"

/-- 2^32, the modulus of `unsigned long` arithmetic on the target. -/
def pow32 : Nat := 4294967296

/-- `now - last` in 32-bit unsigned arithmetic (as in `millis() - lastWiFiAttempt`),
for `now < 2^32`. -/
def elapsed32 (now last : Nat) : Nat := (now + pow32 - last % pow32) % pow32

/-- Derived tri-state status of the WiFi link from the firmware flag pair. -/
def wifiStatus (s : Sys) : ConnectionStatus :=
  if s.wifiConnected then ConnectionStatus.Connected
  else if s.wifiTimedOut then ConnectionStatus.TimedOut
  else ConnectionStatus.Disconnected

/-- Derived tri-state status of the broker session from the firmware flag pair. -/
def mqttStatus (s : Sys) : ConnectionStatus :=
  if s.mqttConnected then ConnectionStatus.Connected
  else if s.mqttTimedOut then ConnectionStatus.TimedOut
  else ConnectionStatus.Disconnected

/-- `checkWiFi()` (main.cpp lines 206-220).  Inputs: whether
`WiFi.status() == WL_CONNECTED`, and the current `millis()` value.
Returns the updated globals and whether `WiFi.reconnect()` was called. -/
def checkWiFi (transportConnected : Bool) (now : Nat) (s : Sys) : Sys × Bool :=
  if transportConnected = false then
    if wifiTimeout ≤ elapsed32 now s.lastWiFiAttempt then
      ({ s with wifiConnected := false, wifiTimedOut := true }, false)
    else
      ({ s with wifiConnected := false, lastWiFiAttempt := now }, true)
  else
    ({ s with wifiConnected := true, wifiTimedOut := false }, false)

/-- `updateLEDs()` (main.cpp lines 135-158): writes a solid fill only when the
(wifiConnected, mqttConnected) pair differs from the previously recorded pair.
Returns the updated globals and the emitted fill, if any. -/
def updateLEDs (s : Sys) : Sys × Option LedSignal :=
  if s.wifiConnected ≠ s.previousWifiStatus ∨ s.mqttConnected ≠ s.previousMqttStatus then
    ({ s with previousWifiStatus := s.wifiConnected, previousMqttStatus := s.mqttConnected },
     some (if s.wifiConnected = false then LedSignal.purple
           else if s.mqttConnected = false then LedSignal.blue
           else LedSignal.red))
  else
    (s, none)

/-- `tolower` on a payload byte (ASCII). -/
def toLowerByte (b : Nat) : Nat := if 65 ≤ b ∧ b ≤ 90 then b + 32 else b

/-- The bytes of a C string: everything before the first NUL byte. -/
def cstr (bs : List Nat) : List Nat := bs.takeWhile (fun b => b != 0)

/-- `strcasecmp(xs, ys) == 0`: the two C strings agree case-insensitively. -/
def strcaseEq (xs ys : List Nat) : Bool :=
  (cstr xs).map toLowerByte == (cstr ys).map toLowerByte

/-- Bytes of `"solve"`. -/
def solveBytes : List Nat := [115, 111, 108, 118, 101]

/-- Bytes of `"reset"`. -/
def resetBytes : List Nat := [114, 101, 115, 101, 116]

/-- The inbound command decoded by `mqttCallback`. -/
inductive Command
  | Solve
  | Reset
  | Unrecognized
deriving DecidableEq

/-- The decoding step of `mqttCallback` (main.cpp lines 183-203): copy the
payload bytes, NUL-terminate, `tolower` every byte (the `messageArrived`
buffer), then `strcasecmp` against `"solve"` and `"reset"`. -/
def mqttDecode (message : List Nat) : Command :=
  if strcaseEq (message.map toLowerByte) solveBytes then Command.Solve
  else if strcaseEq (message.map toLowerByte) resetBytes then Command.Reset
  else Command.Unrecognized

/-- Apply one event to the relay outputs (a `digitalWrite` to a relay pin). -/
def applyEvent (a : Actuators) : Event → Actuators
  | Event.setFlames b => { a with flames := b }
  | Event.setPump b => { a with pump := b }
  | Event.setMagLock b => { a with maglock := b }
  | _ => a

/-- The side effects of `onSolve()` (main.cpp lines 303-332), in program
order: flames HIGH, `delay(5000)`, pump HIGH, six blue `looper` animation
cycles, green fill, MagLock HIGH, pump LOW, flames LOW, publish. -/
def onSolveEvents : List Event :=
  [Event.setFlames true, Event.dwell 5000, Event.setPump true]
    ++ List.replicate 6 (Event.looperAnim Hue.blue)
    ++ [Event.allHue Hue.green, Event.setMagLock true, Event.setPump false,
        Event.setFlames false,
        Event.publish hostTopic "Sterilizer puzzle has been solved!"]

/-- `onSolve()` (main.cpp lines 303-332): runs `onSolveEvents` and sets
`puzzle = Solved`. -/
def onSolve (s : Sys) : Sys × List Event :=
  ({ s with act := onSolveEvents.foldl applyEvent s.act, puzzle := PuzzleState.Solved },
   onSolveEvents)

/-- The side effects of `onReset()` (main.cpp lines 334-362), in program
order: pump LOW, flames LOW, MagLock LOW, three `looper` animation cycles
(green, blue, red) each followed by a 500 ms wait, red fill, `delay(500)`,
publish. -/
def onResetEvents : List Event :=
  [Event.setPump false, Event.setFlames false, Event.setMagLock false,
   Event.looperAnim Hue.green, Event.dwell 500,
   Event.looperAnim Hue.blue, Event.dwell 500,
   Event.looperAnim Hue.red, Event.dwell 500,
   Event.allHue Hue.red, Event.dwell 500,
   Event.publish hostTopic "Sterilizer has been reset!"]

/-- `onReset()` (main.cpp lines 334-362): runs `onResetEvents` and sets
`puzzle = Running`. -/
def onReset (s : Sys) : Sys × List Event :=
  ({ s with act := onResetEvents.foldl applyEvent s.act, puzzle := PuzzleState.Running },
   onResetEvents)

/-- The dispatch step of `mqttCallback` (main.cpp lines 192-203). -/
def mqttCallback (s : Sys) (message : List Nat) : Sys × List Event :=
  match mqttDecode message with
  | Command.Solve => onSolve s
  | Command.Reset => onReset s
  | Command.Unrecognized => (s, [])

/-- The `while (!MQTTclient.connected())` loop of `mqttSetup()` (main.cpp
lines 122-132), fuel-style over the outcomes of successive
`MQTTclient.connect(deviceID)` attempts: `some k` means the loop exits after
`k` failed attempts (5 s delay each); `none` means the loop is still spinning
after exhausting the given outcomes. -/
def mqttSetupRun : List Bool → Option Nat
  | [] => none
  | r :: rs => if r then some 0 else (mqttSetupRun rs).map (fun k => k + 1)

/-- The `while (WiFi.status() != WL_CONNECTED)` wait loop of `wifiSetup()`
(main.cpp lines 110-113), fuel-style over the statuses observed on successive
iterations (500 ms delay each). -/
def wifiSetupRun : List Bool → Option Nat
  | [] => none
  | r :: rs => if r then some 0 else (wifiSetupRun rs).map (fun k => k + 1)

/-- Environment inputs consumed by one `mqttLoop()` call: whether
`MQTTclient.connected()` holds at the check, the `millis()` value at the
timeout test, the outcomes of the connect attempts made if `mqttSetup()` is
entered, the `millis()` value after `mqttSetup()` returns, and the payloads
delivered by `MQTTclient.loop()` if it is called. -/
structure MqttEnv where
  brokerConnected : Bool
  now : Nat
  connectResults : List Bool
  nowAfterSetup : Nat
  inbound : List (List Nat)

/-- `MQTTclient.loop()`: deliver each pending inbound payload to
`mqttCallback`.  Also returns the decoded command of every delivered
payload, in order. -/
def pumpIncoming (s : Sys) : List (List Nat) → Sys × List Event × List Command
  | [] => (s, [], [])
  | m :: ms =>
    ((pumpIncoming (mqttCallback s m).1 ms).1,
     (mqttCallback s m).2 ++ (pumpIncoming (mqttCallback s m).1 ms).2.1,
     mqttDecode m :: (pumpIncoming (mqttCallback s m).1 ms).2.2)

/-- `mqttLoop()` (main.cpp lines 160-175).  `none` means the call is still
inside the blocking `mqttSetup()` retry loop after exhausting
`env.connectResults`.  On completion returns the updated globals, the emitted
events, and the commands decoded from delivered inbound payloads. -/
def mqttLoop (env : MqttEnv) (s : Sys) : Option (Sys × List Event × List Command) :=
  if env.brokerConnected = false then
    if mqttTimeout ≤ elapsed32 env.now s.lastMQTTAttempt then
      some ({ s with mqttConnected := false, mqttTimedOut := true }, [], [])
    else
      match mqttSetupRun env.connectResults with
      | none => none
      | some _ =>
        some ({ s with mqttConnected := false, lastMQTTAttempt := env.nowAfterSetup },
              [Event.subscribeTopic DeviceTopic], [])
  else
    some (pumpIncoming { s with mqttConnected := true, mqttTimedOut := false } env.inbound)

/-- The `switch (puzzle)` at the end of `loop()` (main.cpp lines 275-300). -/
def puzzleStep (sensorLow : Bool) (s : Sys) : Sys × List Event :=
  match s.puzzle with
  | PuzzleState.Initializing => ({ s with puzzle := PuzzleState.Running }, [])
  | PuzzleState.Running => if sensorLow then onSolve s else (s, [])
  | PuzzleState.Solved =>
    ({ s with act := [Event.allHue Hue.green, Event.setMagLock true, Event.setPump false,
                      Event.setFlames false].foldl applyEvent s.act },
     [Event.allHue Hue.green, Event.setMagLock true, Event.setPump false,
      Event.setFlames false])

/-- Environment inputs consumed by one `loop()` iteration. -/
structure TickInput where
  transportConnected : Bool
  nowWifi : Nat
  mqtt : MqttEnv
  sensorLow : Bool

/-- Result of one completed `loop()` iteration. -/
structure TickOut where
  sys : Sys
  events : List Event
  handled : List Command
  ledWrite : Option LedSignal
deriving DecidableEq

/-- `loop()` (main.cpp lines 270-301): `checkWiFi(); mqttLoop(); updateLEDs();`
then the puzzle switch.  `none` means the iteration never completes (stuck in
the blocking broker-reconnect loop). -/
def tick (inp : TickInput) (s : Sys) : Option TickOut :=
  match mqttLoop inp.mqtt (checkWiFi inp.transportConnected inp.nowWifi s).1 with
  | none => none
  | some (s2, mqttEvs, handled) =>
    some { sys := (puzzleStep inp.sensorLow (updateLEDs s2).1).1,
           events :=
             (if (checkWiFi inp.transportConnected inp.nowWifi s).2 then
                [Event.wifiReconnect] else [])
               ++ mqttEvs ++ (puzzleStep inp.sensorLow (updateLEDs s2).1).2,
           handled := handled,
           ledWrite := (updateLEDs s2).2 }

/-- The globals as they stand when `loop()` first runs: `setup()` (main.cpp
lines 222-268) wrote LOW to all three relays, and every flag/timer keeps its
boot-time initializer. -/
def sys0 : Sys :=
  { puzzle := PuzzleState.Initializing,
    act := { flames := false, pump := false, maglock := false },
    wifiConnected := false, wifiTimedOut := false, lastWiFiAttempt := 0,
    mqttConnected := false, mqttTimedOut := false, lastMQTTAttempt := 0,
    previousWifiStatus := false, previousMqttStatus := false }

/-- Iterate completed `loop()` iterations; `none` as soon as one diverges. -/
def runTicks (s : Sys) : List TickInput → Option Sys
  | [] => some s
  | i :: is =>
    match tick i s with
    | none => none
    | some o => runTicks o.sys is

/-- A sequence of `updateLEDs` calls: before each call the monitors set
`wifiConnected`/`mqttConnected` to the given pair, as `checkWiFi`/`mqttLoop`
do before `updateLEDs` runs; collects the emitted fills. -/
def ledRun (s : Sys) : List (Bool × Bool) → List LedSignal
  | [] => []
  | (w, m) :: rest =>
    let s1 := { s with wifiConnected := w, mqttConnected := m }
    let r := updateLEDs s1
    match r.2 with
    | some sig => sig :: ledRun r.1 rest
    | none => ledRun r.1 rest

/-- A tick with transport and broker both up and nothing inbound. -/
def quietTick : TickInput :=
  { transportConnected := true, nowWifi := 0,
    mqtt := { brokerConnected := true, now := 0, connectResults := [],
              nowAfterSetup := 0, inbound := [] },
    sensorLow := false }

/-- A tick with everything up and the rotary sensor reading LOW. -/
def sensorTick : TickInput :=
  { transportConnected := true, nowWifi := 0,
    mqtt := { brokerConnected := true, now := 0, connectResults := [],
              nowAfterSetup := 0, inbound := [] },
    sensorLow := true }

/-- A tick in which the broker delivers a `"solve"` payload. -/
def solveCmdTick : TickInput :=
  { transportConnected := true, nowWifi := 0,
    mqtt := { brokerConnected := true, now := 0, connectResults := [],
              nowAfterSetup := 0, inbound := [solveBytes] },
    sensorLow := false }

/-- A tick with the broker down and the reconnect budget already exhausted
(elapsed 200000 ms since the last attempt, budget 120000 ms). -/
def timedTick : TickInput :=
  { transportConnected := true, nowWifi := 0,
    mqtt := { brokerConnected := false, now := 200000, connectResults := [],
              nowAfterSetup := 0, inbound := [] },
    sensorLow := false }

/-- A tick with transport and broker both down, the reconnect budget not yet
exhausted (elapsed 1000 ms), and the broker refusing `n` successive connect
attempts. -/
def netDownTick (n : Nat) : TickInput :=
  { transportConnected := false, nowWifi := 1000,
    mqtt := { brokerConnected := false, now := 1000,
              connectResults := List.replicate n false,
              nowAfterSetup := 1000, inbound := [] },
    sensorLow := false }

/-- A `mqttLoop` environment with the broker down, the budget not exhausted,
and `n` refused connect attempts. -/
def brokerFailEnv (n : Nat) : MqttEnv :=
  { brokerConnected := false, now := 1000, connectResults := List.replicate n false,
    nowAfterSetup := 1000, inbound := [] }

/-- Outcome of `tick quietTick sys0` (first tick, everything up). -/
def outQuiet : TickOut :=
  { sys := { puzzle := PuzzleState.Running,
             act := { flames := false, pump := false, maglock := false },
             wifiConnected := true, wifiTimedOut := false, lastWiFiAttempt := 0,
             mqttConnected := true, mqttTimedOut := false, lastMQTTAttempt := 0,
             previousWifiStatus := true, previousMqttStatus := true },
    events := [], handled := [], ledWrite := some LedSignal.red }

/-- Outcome of `tick timedTick sys0` (first tick, broker timed out). -/
def outTimed : TickOut :=
  { sys := { puzzle := PuzzleState.Running,
             act := { flames := false, pump := false, maglock := false },
             wifiConnected := true, wifiTimedOut := false, lastWiFiAttempt := 0,
             mqttConnected := false, mqttTimedOut := true, lastMQTTAttempt := 0,
             previousWifiStatus := true, previousMqttStatus := false },
    events := [], handled := [], ledWrite := some LedSignal.blue }

/-- Final globals of the end-to-end demo run `[quietTick, sensorTick]`. -/
def demoFinal : Sys :=
  { puzzle := PuzzleState.Solved,
    act := { flames := false, pump := false, maglock := true },
    wifiConnected := true, wifiTimedOut := false, lastWiFiAttempt := 0,
    mqttConnected := true, mqttTimedOut := false, lastMQTTAttempt := 0,
    previousWifiStatus := true, previousMqttStatus := true }

/-- The actuator invariant of the Solved state (spec section 3). -/
def actInv (s : Sys) : Prop :=
  s.puzzle = PuzzleState.Solved →
    s.act.maglock = true ∧ s.act.flames = false ∧ s.act.pump = false

/-- Relay writes and broker publishes: the externally meaningful effects of a
handler, as opposed to LED animation and waiting. -/
def isRelayOrPublish : Event → Bool
  | Event.setFlames _ => true
  | Event.setPump _ => true
  | Event.setMagLock _ => true
  | Event.publish _ _ => true
  | _ => false

/-! ### Helper lemmas -/

theorem mqttSetupRun_replicate_false (n : Nat) :
    mqttSetupRun (List.replicate n false) = none := by
  induction n with
  | zero => rfl
  | succ k ih => simp [List.replicate, mqttSetupRun, ih]

theorem wifiSetupRun_replicate_false (n : Nat) :
    wifiSetupRun (List.replicate n false) = none := by
  induction n with
  | zero => rfl
  | succ k ih => simp [List.replicate, wifiSetupRun, ih]

theorem elapsed32_eq_sub {a b : Nat} (hba : b ≤ a) (ha : a < pow32) :
    elapsed32 a b = a - b := by
  unfold elapsed32 pow32 at *
  omega

theorem checkWiFi_puzzle (c : Bool) (n : Nat) (s : Sys) :
    (checkWiFi c n s).1.puzzle = s.puzzle := by
  unfold checkWiFi
  split
  · split <;> rfl
  · rfl

theorem checkWiFi_act (c : Bool) (n : Nat) (s : Sys) :
    (checkWiFi c n s).1.act = s.act := by
  unfold checkWiFi
  split
  · split <;> rfl
  · rfl

theorem checkWiFi_lastMQTT (c : Bool) (n : Nat) (s : Sys) :
    (checkWiFi c n s).1.lastMQTTAttempt = s.lastMQTTAttempt := by
  unfold checkWiFi
  split
  · split <;> rfl
  · rfl

theorem updateLEDs_puzzle (s : Sys) : (updateLEDs s).1.puzzle = s.puzzle := by
  unfold updateLEDs
  split <;> rfl

theorem updateLEDs_emit (t : Sys)
    (ht : t.wifiConnected ≠ t.previousWifiStatus ∨ t.mqttConnected ≠ t.previousMqttStatus) :
    updateLEDs t =
      ({ t with previousWifiStatus := t.wifiConnected, previousMqttStatus := t.mqttConnected },
       some (if t.wifiConnected = false then LedSignal.purple
             else if t.mqttConnected = false then LedSignal.blue
             else LedSignal.red)) := by
  unfold updateLEDs
  rw [if_pos ht]

theorem updateLEDs_skip (t : Sys)
    (h1 : t.wifiConnected = t.previousWifiStatus)
    (h2 : t.mqttConnected = t.previousMqttStatus) :
    updateLEDs t = (t, none) := by
  unfold updateLEDs
  rw [if_neg (by tauto)]

theorem mqttLoop_stuck (env : MqttEnv) (s : Sys)
    (hb : env.brokerConnected = false)
    (ht : ¬ mqttTimeout ≤ elapsed32 env.now s.lastMQTTAttempt)
    (hm : mqttSetupRun env.connectResults = none) :
    mqttLoop env s = none := by
  unfold mqttLoop
  rw [if_pos hb, if_neg ht, hm]

theorem tick_stuck (inp : TickInput) (s : Sys)
    (h : mqttLoop inp.mqtt (checkWiFi inp.transportConnected inp.nowWifi s).1 = none) :
    tick inp s = none := by
  unfold tick
  rw [h]

theorem updateLEDs_act (s : Sys) : (updateLEDs s).1.act = s.act := by
  unfold updateLEDs
  split <;> rfl

theorem onSolve_act (s : Sys) :
    (onSolve s).1.act = { flames := false, pump := false, maglock := true } := rfl

theorem onReset_act (s : Sys) :
    (onReset s).1.act = { flames := false, pump := false, maglock := false } := rfl

theorem toLowerByte_ne_zero {b : Nat} (h : b ≠ 0) : toLowerByte b ≠ 0 := by
  unfold toLowerByte
  split <;> omega

theorem toLowerByte_idem (b : Nat) : toLowerByte (toLowerByte b) = toLowerByte b := by
  unfold toLowerByte
  split
  · split <;> omega
  · rfl

theorem takeWhile_of_no_zero :
    ∀ l : List Nat, (∀ b ∈ l, b ≠ 0) → l.takeWhile (fun b => b != 0) = l := by
  intro l
  induction l with
  | nil => intro _; rfl
  | cons a l ih =>
    intro h
    have ha : a ≠ 0 := h a (List.mem_cons_self a l)
    rw [List.takeWhile_cons, if_pos (by simpa using ha),
      ih (fun b hb => h b (List.mem_cons_of_mem a hb))]

theorem map_toLowerByte_idem (l : List Nat) :
    (l.map toLowerByte).map toLowerByte = l.map toLowerByte := by
  rw [List.map_map]
  exact List.map_congr_left (fun b _ => toLowerByte_idem b)

theorem strcaseEq_map_of_no_zero (bs key : List Nat) (h : ∀ b ∈ bs, b ≠ 0)
    (hkey : (cstr key).map toLowerByte = key) :
    strcaseEq (bs.map toLowerByte) key = (bs.map toLowerByte == key) := by
  unfold strcaseEq
  rw [hkey]
  unfold cstr
  rw [takeWhile_of_no_zero (bs.map toLowerByte) ?hz, map_toLowerByte_idem]
  case hz =>
    intro b hb
    obtain ⟨a, ha, rfl⟩ := List.mem_map.mp hb
    exact toLowerByte_ne_zero (h a ha)

theorem mqttCallback_unrec (s : Sys) (m : List Nat)
    (h : mqttDecode m = Command.Unrecognized) : mqttCallback s m = (s, []) := by
  unfold mqttCallback
  rw [h]

theorem mqttCallback_actInv (s : Sys) (m : List Nat) (h : actInv s) :
    actInv (mqttCallback s m).1 := by
  unfold mqttCallback
  cases hd : mqttDecode m with
  | Solve => intro _; exact ⟨rfl, rfl, rfl⟩
  | Reset => intro hp; exact absurd hp (by simp [onReset])
  | Unrecognized => exact h

theorem pumpIncoming_cons (s : Sys) (m : List Nat) (ms : List (List Nat)) :
    pumpIncoming s (m :: ms) =
      ((pumpIncoming (mqttCallback s m).1 ms).1,
       (mqttCallback s m).2 ++ (pumpIncoming (mqttCallback s m).1 ms).2.1,
       mqttDecode m :: (pumpIncoming (mqttCallback s m).1 ms).2.2) := rfl

theorem pumpIncoming_actInv :
    ∀ (ms : List (List Nat)) (s : Sys), actInv s → actInv (pumpIncoming s ms).1
  | [], _, h => h
  | m :: ms, s, h => pumpIncoming_actInv ms _ (mqttCallback_actInv s m h)

theorem pumpIncoming_state_of_unrec :
    ∀ (ms : List (List Nat)) (s : Sys),
      (∀ c ∈ (pumpIncoming s ms).2.2, c = Command.Unrecognized) →
      (pumpIncoming s ms).1 = s := by
  intro ms
  induction ms with
  | nil => intro s _; rfl
  | cons m ms ih =>
    intro s h
    rw [pumpIncoming_cons] at h
    have hm : mqttDecode m = Command.Unrecognized := h _ (by simp)
    have hcb : mqttCallback s m = (s, []) := mqttCallback_unrec s m hm
    have h2 : ∀ c ∈ (pumpIncoming s ms).2.2, c = Command.Unrecognized := by
      intro c hc
      apply h
      rw [hcb]
      exact List.mem_cons_of_mem _ hc
    calc (pumpIncoming s (m :: ms)).1
        = (pumpIncoming (mqttCallback s m).1 ms).1 := by rw [pumpIncoming_cons]
      _ = (pumpIncoming s ms).1 := by rw [hcb]
      _ = s := ih s h2

theorem mqttLoop_actInv (env : MqttEnv) (s : Sys)
    (r : Sys × List Event × List Command)
    (h : mqttLoop env s = some r) (hs : actInv s) : actInv r.1 := by
  unfold mqttLoop at h
  split at h
  · split at h
    · injection h with h
      subst h
      intro hp
      exact hs hp
    · split at h
      · exact Option.noConfusion h
      · injection h with h
        subst h
        intro hp
        exact hs hp
  · injection h with h
    subst h
    exact pumpIncoming_actInv env.inbound _ (fun hp => hs hp)

theorem mqttLoop_state_of_unrec (env : MqttEnv) (s : Sys)
    (r : Sys × List Event × List Command)
    (h : mqttLoop env s = some r)
    (hu : ∀ c ∈ r.2.2, c = Command.Unrecognized) :
    r.1.puzzle = s.puzzle ∧ r.1.act = s.act := by
  unfold mqttLoop at h
  split at h
  · split at h
    · injection h with h
      subst h
      exact ⟨rfl, rfl⟩
    · split at h
      · exact Option.noConfusion h
      · injection h with h
        subst h
        exact ⟨rfl, rfl⟩
  · injection h with h
    subst h
    have heq := pumpIncoming_state_of_unrec env.inbound
      { s with mqttConnected := true, mqttTimedOut := false } hu
    rw [heq]
    exact ⟨rfl, rfl⟩

theorem puzzleStep_actInv (b : Bool) (s : Sys) (hs : actInv s) :
    actInv (puzzleStep b s).1 := by
  unfold puzzleStep
  cases hp : s.puzzle with
  | Initializing =>
    intro hq
    exact PuzzleState.noConfusion
      (show PuzzleState.Running = PuzzleState.Solved from hq)
  | Running =>
    cases b with
    | true => intro _; exact ⟨rfl, rfl, rfl⟩
    | false => intro hq; exact hs hq
  | Solved => intro _; exact ⟨rfl, rfl, rfl⟩

theorem puzzleStep_ne_init (b : Bool) (s : Sys) :
    (puzzleStep b s).1.puzzle ≠ PuzzleState.Initializing := by
  unfold puzzleStep
  cases hp : s.puzzle with
  | Initializing =>
    exact fun hq => PuzzleState.noConfusion
      (show PuzzleState.Running = PuzzleState.Initializing from hq)
  | Running =>
    cases b with
    | true =>
      exact fun hq => PuzzleState.noConfusion
        (show PuzzleState.Solved = PuzzleState.Initializing from hq)
    | false =>
      intro hq
      rw [show ((if false = true then onSolve s else (s, [])).1.puzzle) = s.puzzle from rfl,
        hp] at hq
      exact PuzzleState.noConfusion hq
  | Solved =>
    exact fun hq => PuzzleState.noConfusion
      (show PuzzleState.Solved = PuzzleState.Initializing from hq)

theorem puzzleStep_init (b : Bool) (s : Sys) (hp : s.puzzle = PuzzleState.Initializing) :
    (puzzleStep b s).1.puzzle = PuzzleState.Running := by
  unfold puzzleStep
  rw [hp]

theorem puzzleStep_solved (b : Bool) (s : Sys) (hp : s.puzzle = PuzzleState.Solved) :
    (puzzleStep b s).1.puzzle = PuzzleState.Solved := by
  unfold puzzleStep
  rw [hp]

theorem puzzleStep_running (b : Bool) (s : Sys) (hp : s.puzzle = PuzzleState.Running) :
    (puzzleStep b s).1.puzzle = PuzzleState.Running
    ∨ (b = true ∧ (puzzleStep b s).1.puzzle = PuzzleState.Solved) := by
  unfold puzzleStep
  rw [hp]
  cases b with
  | true => exact Or.inr ⟨rfl, rfl⟩
  | false => exact Or.inl hp

theorem mqttLoop_disconnected (env : MqttEnv) (s : Sys)
    (r : Sys × List Event × List Command)
    (hb : env.brokerConnected = false) (h : mqttLoop env s = some r) :
    r.2.2 = [] ∧ r.1.puzzle = s.puzzle ∧ r.1.act = s.act := by
  unfold mqttLoop at h
  rw [if_pos hb] at h
  split at h
  · injection h with h
    subst h
    exact ⟨rfl, rfl, rfl⟩
  · split at h
    · exact Option.noConfusion h
    · injection h with h
      subst h
      exact ⟨rfl, rfl, rfl⟩

theorem tick_actInv (inp : TickInput) (s : Sys) (o : TickOut)
    (h : tick inp s = some o) (hs : actInv s) : actInv o.sys := by
  unfold tick at h
  split at h
  · exact Option.noConfusion h
  · next s2 mqttEvs handled hml =>
    injection h with h
    subst h
    apply puzzleStep_actInv
    intro hp
    rw [updateLEDs_puzzle] at hp
    rw [updateLEDs_act]
    have hcw : actInv (checkWiFi inp.transportConnected inp.nowWifi s).1 := by
      intro hq
      rw [checkWiFi_puzzle] at hq
      rw [checkWiFi_act]
      exact hs hq
    exact mqttLoop_actInv inp.mqtt _ (s2, mqttEvs, handled) hml hcw hp

/-! ### Claim theorems -/

/-- C3: for the link monitor with `lastAttempt = T0` and budget 120000 ms,
a check at `T0 + 120001` with the transport disconnected yields status
TimedOut, issues no reconnect request and leaves `lastAttempt` unchanged; a
check at `T0 + 500` with the transport disconnected (and the monitor not
already timed out) yields status Disconnected, issues exactly one reconnect
request and sets `lastAttempt` to the current time; a check with the
transport connected yields status Connected and clears the timed-out flag. -/
theorem checkWiFi_spec :
    ∀ (T0 : Nat) (s : Sys), s.lastWiFiAttempt = T0 → T0 + 120001 < pow32 →
    (wifiStatus (checkWiFi false (T0 + 120001) s).1 = ConnectionStatus.TimedOut
      ∧ (checkWiFi false (T0 + 120001) s).2 = false
      ∧ (checkWiFi false (T0 + 120001) s).1.lastWiFiAttempt = T0)
    ∧ (s.wifiTimedOut = false →
        wifiStatus (checkWiFi false (T0 + 500) s).1 = ConnectionStatus.Disconnected
        ∧ (checkWiFi false (T0 + 500) s).2 = true
        ∧ (checkWiFi false (T0 + 500) s).1.lastWiFiAttempt = T0 + 500)
    ∧ (∀ now : Nat,
        wifiStatus (checkWiFi true now s).1 = ConnectionStatus.Connected
        ∧ (checkWiFi true now s).1.wifiTimedOut = false
        ∧ (checkWiFi true now s).2 = false) := by
  intro T0 s hT hlt
  have e1 : checkWiFi false (T0 + 120001) s
      = ({ s with wifiConnected := false, wifiTimedOut := true }, false) := by
    unfold checkWiFi
    rw [if_pos rfl, hT, elapsed32_eq_sub (by omega) hlt,
      if_pos (show wifiTimeout ≤ T0 + 120001 - T0 by unfold wifiTimeout; omega)]
  have e2 : checkWiFi false (T0 + 500) s
      = ({ s with wifiConnected := false, lastWiFiAttempt := T0 + 500 }, true) := by
    unfold checkWiFi
    rw [if_pos rfl, hT,
      elapsed32_eq_sub (by omega) (by unfold pow32 at hlt ⊢; omega),
      if_neg (show ¬wifiTimeout ≤ T0 + 500 - T0 by unfold wifiTimeout; omega)]
  have e3 : ∀ now : Nat, checkWiFi true now s
      = ({ s with wifiConnected := true, wifiTimedOut := false }, false) := by
    intro now
    unfold checkWiFi
    rw [if_neg (by simp)]
  refine ⟨?_, ?_, ?_⟩
  · rw [e1]
    exact ⟨rfl, rfl, hT⟩
  · intro hTO
    rw [e2]
    refine ⟨?_, rfl, rfl⟩
    unfold wifiStatus
    simp [hTO]
  · intro now
    rw [e3 now]
    exact ⟨rfl, rfl, rfl⟩

/-- C3 witness: `checkWiFi_spec` instantiated at `T0 = 0` on the boot-time
globals, all hypotheses discharged by computation. -/
theorem checkWiFi_spec_witness :
    (sys0.lastWiFiAttempt = 0 ∧ (0 : Nat) + 120001 < pow32 ∧ sys0.wifiTimedOut = false)
    ∧ wifiStatus (checkWiFi false (0 + 120001) sys0).1 = ConnectionStatus.TimedOut
    ∧ (checkWiFi false (0 + 500) sys0).2 = true
    ∧ (checkWiFi false (0 + 500) sys0).1.lastWiFiAttempt = 0 + 500
    ∧ wifiStatus (checkWiFi true 7 sys0).1 = ConnectionStatus.Connected := by
  have h := checkWiFi_spec 0 sys0 rfl (by decide)
  exact ⟨⟨rfl, by decide, rfl⟩, h.1.1, (h.2.1 rfl).2.1, (h.2.1 rfl).2.2, (h.2.2 7).1⟩

/-- C4: every completed run of the orchestrator loop that ends with the
puzzle Solved has lock on and flames and pump off; the actuators at the end
of any `onSolve` are lock on, flames and pump off; at the end of any
`onReset` all three are off. -/
theorem solved_actuator_invariant :
    (∀ (inps : List TickInput) (s : Sys), runTicks sys0 inps = some s →
      s.puzzle = PuzzleState.Solved →
      s.act.maglock = true ∧ s.act.flames = false ∧ s.act.pump = false)
    ∧ (∀ s : Sys, (onSolve s).1.act.maglock = true
        ∧ (onSolve s).1.act.flames = false ∧ (onSolve s).1.act.pump = false)
    ∧ (∀ s : Sys, (onReset s).1.act.maglock = false
        ∧ (onReset s).1.act.flames = false ∧ (onReset s).1.act.pump = false) := by
  refine ⟨?_, fun s => ⟨rfl, rfl, rfl⟩, fun s => ⟨rfl, rfl, rfl⟩⟩
  have main : ∀ (inps : List TickInput) (s : Sys), actInv s →
      ∀ s2 : Sys, runTicks s inps = some s2 → actInv s2 := by
    intro inps
    induction inps with
    | nil =>
      intro s hs s2 h
      injection h with h
      subst h
      exact hs
    | cons i is ih =>
      intro s hs s2 h
      unfold runTicks at h
      split at h
      · exact Option.noConfusion h
      · next o hto => exact ih o.sys (tick_actInv i s o hto hs) s2 h
  intro inps s hrun hp
  exact main inps sys0 (fun hq => absurd hq (by decide)) s hrun hp

/-- C4 witness: a boot tick followed by a sensor-triggered solve reaches the
Solved state, where `solved_actuator_invariant` yields the actuator facts. -/
theorem solved_actuator_invariant_witness :
    runTicks sys0 [quietTick, sensorTick] = some demoFinal
    ∧ demoFinal.puzzle = PuzzleState.Solved
    ∧ (demoFinal.act.maglock = true ∧ demoFinal.act.flames = false
        ∧ demoFinal.act.pump = false) :=
  ⟨by decide, rfl,
   solved_actuator_invariant.1 [quietTick, sensorTick] demoFinal (by decide) rfl⟩

/-- C1 counterexample: from the boot state (puzzle Initializing), a single
tick whose inbound pump delivers a `"solve"` payload ends with the puzzle
Solved, so the state moves Initializing to Solved directly, and the command
was dispatched before the switch advanced Initializing to Running. -/
theorem firstTick_solve_reaches_solved :
    sys0.puzzle = PuzzleState.Initializing
    ∧ (tick solveCmdTick sys0).map (fun o => o.sys.puzzle) = some PuzzleState.Solved :=
  ⟨rfl, by decide⟩

/-- C1 amended: after every completed tick the puzzle state is never
Initializing; and in a tick whose inbound pump delivered only unrecognized
commands, Initializing advances to Running, Solved stays Solved, and Running
stays Running unless the sensor reads LOW, in which case it may move to
Solved.  (The connectivity checks and command dispatch run before the puzzle
switch, so a recognized command in the first tick can pre-empt the
Initializing-to-Running step, e.g. moving Initializing directly to Solved.) -/
theorem puzzle_transitions_amended :
    ∀ (inp : TickInput) (s : Sys) (o : TickOut), tick inp s = some o →
      o.sys.puzzle ≠ PuzzleState.Initializing
      ∧ ((∀ c ∈ o.handled, c = Command.Unrecognized) →
          (s.puzzle = PuzzleState.Initializing → o.sys.puzzle = PuzzleState.Running)
          ∧ (s.puzzle = PuzzleState.Solved → o.sys.puzzle = PuzzleState.Solved)
          ∧ (s.puzzle = PuzzleState.Running →
              o.sys.puzzle = PuzzleState.Running
              ∨ (inp.sensorLow = true ∧ o.sys.puzzle = PuzzleState.Solved))) := by
  intro inp s o h
  unfold tick at h
  split at h
  · exact Option.noConfusion h
  · next s2 mqttEvs handled hml =>
    injection h with h
    subst h
    constructor
    · exact puzzleStep_ne_init _ _
    · intro hu
      have h1 := mqttLoop_state_of_unrec inp.mqtt _ (s2, mqttEvs, handled) hml hu
      have hpz2 : (updateLEDs s2).1.puzzle = s.puzzle := by
        rw [updateLEDs_puzzle, h1.1, checkWiFi_puzzle]
      refine ⟨?_, ?_, ?_⟩
      · intro hi
        exact puzzleStep_init _ _ (by rw [hpz2, hi])
      · intro hi
        exact puzzleStep_solved _ _ (by rw [hpz2, hi])
      · intro hi
        exact puzzleStep_running _ _ (by rw [hpz2, hi])

/-- C1 witness: `puzzle_transitions_amended` applied to a concrete quiet
first tick, showing Initializing advances to Running. -/
theorem puzzle_transitions_amended_witness :
    tick quietTick sys0 = some outQuiet
    ∧ outQuiet.sys.puzzle = PuzzleState.Running :=
  ⟨by decide,
   ((puzzle_transitions_amended quietTick sys0 outQuiet (by decide)).2 (by decide)).1 rfl⟩

/-- C10: in any completed tick entered with the broker session not connected
(including after broker timeout), no inbound command is decoded or
dispatched, and the puzzle state changes only through the
Initializing-to-Running step or the sensor read. -/
theorem broker_down_no_commands :
    ∀ (inp : TickInput) (s : Sys) (o : TickOut),
      inp.mqtt.brokerConnected = false → tick inp s = some o →
      o.handled = []
      ∧ (s.puzzle = PuzzleState.Initializing → o.sys.puzzle = PuzzleState.Running)
      ∧ (s.puzzle = PuzzleState.Solved → o.sys.puzzle = PuzzleState.Solved)
      ∧ (s.puzzle = PuzzleState.Running →
          o.sys.puzzle = PuzzleState.Running
          ∨ (inp.sensorLow = true ∧ o.sys.puzzle = PuzzleState.Solved)) := by
  intro inp s o hb h
  unfold tick at h
  split at h
  · exact Option.noConfusion h
  · next s2 mqttEvs handled hml =>
    injection h with h
    subst h
    have hd := mqttLoop_disconnected inp.mqtt _ (s2, mqttEvs, handled) hb hml
    have hpz2 : (updateLEDs s2).1.puzzle = s.puzzle := by
      rw [updateLEDs_puzzle, hd.2.1, checkWiFi_puzzle]
    refine ⟨hd.1, ?_, ?_, ?_⟩
    · intro hi
      exact puzzleStep_init _ _ (by rw [hpz2, hi])
    · intro hi
      exact puzzleStep_solved _ _ (by rw [hpz2, hi])
    · intro hi
      exact puzzleStep_running _ _ (by rw [hpz2, hi])

/-- C10 witness: `broker_down_no_commands` applied to a concrete tick in
which the broker reconnect budget has expired. -/
theorem broker_down_no_commands_witness :
    tick timedTick sys0 = some outTimed
    ∧ outTimed.handled = []
    ∧ outTimed.sys.puzzle = PuzzleState.Running := by
  have h := broker_down_no_commands timedTick sys0 outTimed rfl (by decide)
  exact ⟨by decide, h.1, h.2.1 rfl⟩

/-- C2 (code bug): with the transport down and the broker refusing every
connect attempt while the reconnect budget is not yet exhausted
(`lastMQTTAttempt = 0`, `millis() = 1000`), the tick is still inside the
blocking `mqttSetup()` retry loop after any number `n` of refused attempts,
so it never reaches `updateLEDs` or the puzzle switch; likewise the boot-time
`wifiSetup()` wait loop never completes while the transport never connects.
This contradicts the claim that every tick and the boot sequence complete
under every network condition. -/
theorem netdown_tick_diverges (n : Nat) :
    tick (netDownTick n) sys0 = none
    ∧ wifiSetupRun (List.replicate n false) = none := by
  refine ⟨?_, wifiSetupRun_replicate_false n⟩
  refine tick_stuck _ _ (mqttLoop_stuck _ _ rfl ?_ (mqttSetupRun_replicate_false n))
  rw [checkWiFi_lastMQTT]
  exact (show ¬ mqttTimeout ≤ elapsed32 1000 0 by decide)

/-- C7 (code bug): with the broker disconnected and the reconnect budget not
yet exhausted (elapsed 1000 ms of the 120000 ms budget), a single `mqttLoop`
check is still spinning inside the blocking `mqttSetup()` retry loop after
any number `n` of refused connect attempts: the check does not perform one
bounded reconnect attempt and return, contradicting the claimed mirror of
the link monitor's single-attempt policy. -/
theorem mqttLoop_reconnect_diverges (n : Nat) :
    mqttLoop (brokerFailEnv n) sys0 = none :=
  mqttLoop_stuck _ _ rfl
    (show ¬ mqttTimeout ≤ elapsed32 1000 0 by decide)
    (mqttSetupRun_replicate_false n)

/-- C5 counterexample: starting from the boot state, the update sequence with
inputs (link down, broker up) then (link down, broker down) emits the purple
"no network" fill twice in a row: the second write carries the same signal as
the immediately preceding one, because the code compares the raw status pair,
not the computed signal. -/
theorem updateLEDs_repeats_signal :
    ledRun sys0 [(false, true), (false, false)]
      = [LedSignal.purple, LedSignal.purple] := by decide

/-- C5 amended: `updateLEDs` emits exactly when the (wifi, mqtt) status pair
differs from the previously recorded pair (so repeated calls with unchanged
inputs emit nothing, and an immediate second call never emits), the emitted
fill is the priority-chosen signal of the current pair, and the recorded
pair is updated to the current inputs; but a write may repeat the previous
signal when the pair changes within the same priority class. -/
theorem updateLEDs_amended :
    ∀ s : Sys,
      ((updateLEDs s).2 =
        if s.wifiConnected = s.previousWifiStatus ∧ s.mqttConnected = s.previousMqttStatus
        then none
        else some (if s.wifiConnected = false then LedSignal.purple
                   else if s.mqttConnected = false then LedSignal.blue
                   else LedSignal.red))
      ∧ (updateLEDs s).1.previousWifiStatus = s.wifiConnected
      ∧ (updateLEDs s).1.previousMqttStatus = s.mqttConnected
      ∧ (updateLEDs (updateLEDs s).1).2 = none := by
  intro s
  by_cases hgood : s.wifiConnected = s.previousWifiStatus
      ∧ s.mqttConnected = s.previousMqttStatus
  · rw [updateLEDs_skip s hgood.1 hgood.2]
    refine ⟨by rw [if_pos hgood], hgood.1.symm, hgood.2.symm, ?_⟩
    show (updateLEDs s).2 = none
    rw [updateLEDs_skip s hgood.1 hgood.2]
  · have hor : s.wifiConnected ≠ s.previousWifiStatus
        ∨ s.mqttConnected ≠ s.previousMqttStatus := by tauto
    rw [updateLEDs_emit s hor]
    refine ⟨by rw [if_neg hgood], rfl, rfl, ?_⟩
    rw [updateLEDs_skip _ rfl rfl]

/-- C6 counterexample: in the event trace of the Solve sequence, the
lock-release activation occurs strictly before the pump and flames
deactivations, contradicting the claimed order (deactivate flames and pump,
then activate the lock). -/
theorem onSolve_lock_before_flames_off :
    Event.setMagLock true ∈ onSolveEvents
    ∧ Event.setPump false ∈ onSolveEvents
    ∧ Event.setFlames false ∈ onSolveEvents
    ∧ onSolveEvents.indexOf (Event.setMagLock true)
        < onSolveEvents.indexOf (Event.setPump false)
    ∧ onSolveEvents.indexOf (Event.setMagLock true)
        < onSolveEvents.indexOf (Event.setFlames false) := by decide

/-- C6 amended: every execution of the Solve sequence performs, in order:
flames on, a 5000 ms dwell, pump on, a six-cycle blue working animation,
then (after a green fill) lock-release on, pump off, flames off, and finally
exactly one publish of the exact text "Sterilizer puzzle has been solved!"
on topic ToHost/Sterilizer as the last effect. -/
theorem onSolve_order_amended :
    ∀ s : Sys,
      (onSolve s).2.filter isRelayOrPublish =
        [Event.setFlames true, Event.setPump true, Event.setMagLock true,
         Event.setPump false, Event.setFlames false,
         Event.publish hostTopic "Sterilizer puzzle has been solved!"]
      ∧ (onSolve s).2[1]? = some (Event.dwell 5000)
      ∧ (onSolve s).2.count (Event.looperAnim Hue.blue) = 6
      ∧ (onSolve s).2.getLast? =
          some (Event.publish hostTopic "Sterilizer puzzle has been solved!") := by
  intro s
  refine ⟨?_, ?_, ?_, ?_⟩
  · show onSolveEvents.filter isRelayOrPublish = _
    decide
  · show onSolveEvents[1]? = _
    decide
  · show onSolveEvents.count (Event.looperAnim Hue.blue) = 6
    decide
  · show onSolveEvents.getLast? = _
    decide

/-- C8 counterexample: the payload "solve", a NUL byte, then the byte for
the letter x is not case-insensitively equal to "solve" (or "reset") as a
byte string, yet it decodes to the Solve command, because the C string
comparison stops at the first NUL byte. -/
theorem decode_nul_payload :
    mqttDecode [115, 111, 108, 118, 101, 0, 120] = Command.Solve
    ∧ [115, 111, 108, 118, 101, 0, 120].map toLowerByte ≠ solveBytes
    ∧ [115, 111, 108, 118, 101, 0, 120].map toLowerByte ≠ resetBytes := by decide

/-- C8 amended: decoding is total, and on every payload without embedded NUL
bytes it matches case-insensitively against the vocabulary and maps
everything else to Unrecognized (payloads with an embedded NUL are matched
on the prefix before the first NUL, C-string style); the four examples
decode as claimed. -/
theorem decode_amended :
    (∀ bs : List Nat, (∀ b ∈ bs, b ≠ 0) →
      (mqttDecode bs = Command.Solve ↔ bs.map toLowerByte = solveBytes)
      ∧ (mqttDecode bs = Command.Reset ↔ bs.map toLowerByte = resetBytes))
    ∧ mqttDecode [83, 79, 76, 86, 69] = Command.Solve
    ∧ mqttDecode [115, 111, 108, 118, 101] = Command.Solve
    ∧ mqttDecode [] = Command.Unrecognized
    ∧ mqttDecode [98, 108, 105, 110, 107] = Command.Unrecognized
    ∧ (∀ bs : List Nat,
        mqttDecode bs = Command.Solve ∨ mqttDecode bs = Command.Reset
        ∨ mqttDecode bs = Command.Unrecognized) := by
  refine ⟨?_, by decide, by decide, by decide, by decide, ?_⟩
  · intro bs h
    have hsolve : strcaseEq (bs.map toLowerByte) solveBytes
        = (bs.map toLowerByte == solveBytes) :=
      strcaseEq_map_of_no_zero bs solveBytes h (by decide)
    have hreset : strcaseEq (bs.map toLowerByte) resetBytes
        = (bs.map toLowerByte == resetBytes) :=
      strcaseEq_map_of_no_zero bs resetBytes h (by decide)
    unfold mqttDecode
    rw [hsolve, hreset]
    by_cases h1 : bs.map toLowerByte = solveBytes
      <;> by_cases h2 : bs.map toLowerByte = resetBytes
      <;> simp [h1, h2]
      <;> decide
  · intro bs
    unfold mqttDecode
    split
    · exact Or.inl rfl
    · split
      · exact Or.inr (Or.inl rfl)
      · exact Or.inr (Or.inr rfl)

/-- C8 witness: `decode_amended` instantiated at the NUL-free payload
"SOLVE", all hypotheses discharged by computation. -/
theorem decode_amended_witness :
    (∀ b ∈ ([83, 79, 76, 86, 69] : List Nat), b ≠ 0)
    ∧ mqttDecode [83, 79, 76, 86, 69] = Command.Solve :=
  ⟨by decide,
   (decode_amended.1 [83, 79, 76, 86, 69] (by decide)).1.mpr (by decide)⟩

/-- C9: inbound commands are dispatched regardless of the current puzzle
state: for every state (including Initializing), a "reset" payload runs the
full Reset sequence (all relays off, animation and publish events of
`onResetEvents`, including the reset notification) and leaves the puzzle
Running, and a "solve" payload runs the Solve sequence and leaves it
Solved. -/
theorem reset_dispatch_any_state :
    ∀ s : Sys,
      (mqttCallback s resetBytes).1.puzzle = PuzzleState.Running
      ∧ (mqttCallback s resetBytes).2 = onResetEvents
      ∧ (mqttCallback s resetBytes).1.act =
          { flames := false, pump := false, maglock := false }
      ∧ Event.publish hostTopic "Sterilizer has been reset!" ∈ (mqttCallback s resetBytes).2
      ∧ (mqttCallback s solveBytes).1.puzzle = PuzzleState.Solved := by
  intro s
  refine ⟨rfl, rfl, rfl, ?_, rfl⟩
  show Event.publish hostTopic "Sterilizer has been reset!" ∈ onResetEvents
  decide

end Sterilizer
